import Mathlib

/-!
Verification development for the ReconAI scan-orchestration core.

The Python source is shallowly embedded: each effectful network or
database primitive becomes an explicit input (a value describing what
the ambient network or clock returned), pure control flow is translated
function by function, and raised exceptions become `Except` errors
carrying the message string.
-/

namespace ReconAI

/-! ## src/modules/network_intel.py -/

/-- Outcome of the banner-read step of `NetworkIntelligence._scan_port`
for an already-established connection: either `reader.read(1024)`
returned bytes (given here already decoded, as the code decodes with
errors ignored), or the read raised (connection reset, timeout of the
1-unit deadline, any exception), which the code swallows with a bare
except and leaves the banner as None. -/
inductive BannerRead where
  | data (raw : String)
  | failed
deriving DecidableEq, Repr

/-- Outcome of one connection attempt inside `_scan_port`: the connect
(under `asyncio.wait_for` with the 2-unit timeout) either raises —
refused, timeout, unreachable, any exception at all — or yields a
stream; on success the banner read happens and then
`writer.close(); await writer.wait_closed()`, a step which may itself
raise (`closeOk = false`) and then lands in the same outer bare
except. -/
inductive ConnAttempt where
  | fail
  | ok (readOutcome : BannerRead) (closeOk : Bool)
deriving DecidableEq, Repr

/-- Python `str.strip()` with no argument: remove leading and trailing
whitespace. -/
def pyStrip (s : String) : String :=
  ⟨((s.data.dropWhile Char.isWhitespace).reverse.dropWhile
      Char.isWhitespace).reverse⟩

namespace NetworkIntelligence

/-- The static `common_ports` list from `NetworkIntelligence.__init__`. -/
def common_ports : List Nat :=
  [21, 22, 23, 25, 53, 80, 110, 143, 443, 465, 587, 993, 995,
   3306, 3389, 5432, 5900, 8080, 8443, 27017]

/-- The static port-to-service-label table of
`NetworkIntelligence._identify_service`. -/
def serviceTable : List (Nat × String) :=
  [(21, "FTP"), (22, "SSH"), (23, "Telnet"), (25, "SMTP"), (53, "DNS"),
   (80, "HTTP"), (110, "POP3"), (143, "IMAP"), (443, "HTTPS"),
   (465, "SMTPS"), (587, "SMTP (Submission)"), (993, "IMAPS"),
   (995, "POP3S"), (3306, "MySQL"), (3389, "RDP"), (5432, "PostgreSQL"),
   (5900, "VNC"), (8080, "HTTP-Proxy"), (8443, "HTTPS-Alt"),
   (27017, "MongoDB")]

/-- Embedding of `NetworkIntelligence._identify_service`: dictionary lookup with
default value Unknown (`services.get(port, "Unknown")`). -/
def identify_service (port : Nat) : String :=
  match serviceTable.lookup port with
  | some s => s
  | none => "Unknown"

/-- Embedding of `NetworkIntelligence._scan_port`: returns the `(port, is_open,
banner)` triple.  A successful read decodes the bytes and strips
whitespace (`banner_data.decode(...).strip()`); a connect failure, and
equally a failure while closing the stream, falls into the outer bare
except and yields `(port, False, None)`. -/
def scan_port (conn : ConnAttempt) (port : Nat) : Nat × Bool × Option String :=
  match conn with
  | .fail => (port, false, none)
  | .ok readOutcome closeOk =>
    let banner : Option String :=
      match readOutcome with
      | .data raw => some (pyStrip raw)
      | .failed => none
    if closeOk then (port, true, banner) else (port, false, none)

/-- The fan-out of `NetworkIntelligence.scan` lines 50-51: one
`_scan_port` task per entry of `common_ports`; `asyncio.gather`
returns the results in the order the tasks were passed, independent of
completion order, so the gathered list is the in-order map.  The
ambient network is the function `conn`. -/
def portScan (conn : Nat → ConnAttempt) : List (Nat × Bool × Option String) :=
  common_ports.map fun p => scan_port (conn p) p

/-- The classification loop of `NetworkIntelligence.scan` lines 53-61:
walk the gathered `(port, is_open, banner)` triples in order, append
open ports (with their service label, and their banner only when it is
truthy, i.e. non-empty) and closed ports.  Returns
`(open_ports, closed_ports, services, banners)`. -/
def classify : List (Nat × Bool × Option String) →
    List Nat × List Nat × List (Nat × String) × List (Nat × String)
  | [] => ([], [], [], [])
  | (port, isOpen, banner) :: rest =>
    let (o, c, s, b) := classify rest
    if isOpen then
      (port :: o, c, (port, identify_service port) :: s,
        match banner with
        | some bn => if bn = "" then b else (port, bn) :: b
        | none => b)
    else
      (o, port :: c, s, b)

/-- The result dictionary built by `NetworkIntelligence.scan`.
`ip_address` and `error` are optional because the code adds those keys
conditionally. -/
structure NetworkResults where
  target : String
  timestamp : String
  open_ports : List Nat
  closed_ports : List Nat
  services : List (Nat × String)
  banners : List (Nat × String)
  ip_address : Option String
  error : Option String
deriving DecidableEq, Repr

/-- Embedding of `NetworkIntelligence.scan`: hostname resolution
(`socket.gethostbyname`) is the input `resolve` (an exception message
on failure), the per-port connection behaviour is the input `conn`,
and `now` is the timestamp taken at entry.  On resolution failure the
function stores the error message and returns at once with all port
collections still empty. -/
def scan (resolve : Except String String) (conn : Nat → ConnAttempt)
    (target now : String) : NetworkResults :=
  match resolve with
  | .error e =>
    { target := target, timestamp := now, open_ports := [], closed_ports := [],
      services := [], banners := [], ip_address := none,
      error := some ("Could not resolve hostname: " ++ e) }
  | .ok ip =>
    let (o, c, s, b) := classify (portScan conn)
    { target := target, timestamp := now, open_ports := o, closed_ports := c,
      services := s, banners := b, ip_address := some ip, error := none }

/-- Whether the probe of port `p` under network behaviour `conn`
classifies the port as open. -/
def isOpenPort (conn : Nat → ConnAttempt) (p : Nat) : Bool :=
  (scan_port (conn p) p).2.1

/-- The banners-map entry that the classification loop produces for
port `p`, if any: only open ports with a truthy (non-empty) banner
contribute. -/
def bannerEntry (conn : Nat → ConnAttempt) (p : Nat) : Option (Nat × String) :=
  match scan_port (conn p) p with
  | (port, isOpen, banner) =>
    if isOpen then
      match banner with
      | some bn => if bn = "" then none else some (port, bn)
      | none => none
    else none

end NetworkIntelligence

/-! ## src/modules/database.py

The sqlite rows of the `scans` table are embedded as records; the
`results` and `analysis` blobs are kept as typed values (`α` for the
per-module result map payloads, `β` for the analysis payload) instead
of JSON strings.  `uuid.uuid4()` is modelled by a fresh-id counter:
the only property the code needs from it is freshness. -/

/-- One row of the `scans` table. -/
structure ScanRecord (α β : Type) where
  scan_id : Nat
  target : String
  scan_type : String
  status : String
  created_at : String
  completed_at : Option String
  results : Option (List (String × α))
  analysis : Option β
deriving DecidableEq, Repr

/-- The database state: the `scans` table (most recently inserted row
first) together with the fresh-id source. -/
structure DB (α β : Type) where
  nextId : Nat
  scans : List (ScanRecord α β)
deriving DecidableEq, Repr

namespace Database

/-- Embedding of `Database.create_scan`: inserts a new row with status running,
`created_at` set to the current time, and `completed_at`, `results`,
`analysis` all unset (NULL), then returns the fresh scan id. -/
def create_scan {α β : Type} (db : DB α β) (target scanType now : String) :
    Nat × DB α β :=
  (db.nextId,
   { nextId := db.nextId + 1,
     scans :=
       { scan_id := db.nextId, target := target, scan_type := scanType,
         status := "running", created_at := now, completed_at := none,
         results := none, analysis := none } :: db.scans })

/-- Embedding of `Database.save_results`: the single UPDATE that sets
`status = completed`, `completed_at = now` and stores the payloads on
the row whose id matches (rows with another id are untouched). -/
def save_results {α β : Type} (db : DB α β) (scanId : Nat)
    (results : List (String × α)) (analysis : β) (now : String) : DB α β :=
  { db with
    scans := db.scans.map fun r =>
      if r.scan_id = scanId then
        { r with
          status := "completed", completed_at := some now,
          results := some results, analysis := some analysis }
      else r }

/-- The database states reachable through the two status-writing
operations of `Database` (`create_scan` and `save_results` are the
only statements in src/modules/database.py that write the `status`
column). -/
inductive Reachable {α β : Type} : DB α β → Prop where
  | empty : Reachable { nextId := 0, scans := [] }
  | create (db : DB α β) (target scanType now : String) :
      Reachable db → Reachable (create_scan db target scanType now).2
  | save (db : DB α β) (scanId : Nat) (results : List (String × α))
      (analysis : β) (now : String) :
      Reachable db → Reachable (save_results db scanId results analysis now)

/-- The per-row status invariant of the scan lifecycle: a row is
either still running — with `completed_at`, `results`, `analysis`
unset — or completed with `completed_at` set; no third status value
exists. -/
def statusOk {α β : Type} (r : ScanRecord α β) : Bool :=
  (r.status == ("running") && r.completed_at.isNone && r.results.isNone
    && r.analysis.isNone)
  || (r.status == ("completed") && r.completed_at.isSome)

/-- The method names defined by the `Database` class in
src/modules/database.py. -/
def methodNames : List String :=
  ["__init__", "initialize", "create_scan", "save_results", "get_scan",
   "get_recent_scans", "get_statistics", "close"]

end Database

/-! ## src/app.py -/

/-- The request body of the v1 scan endpoint (`ReconRequest`). -/
structure ReconRequest where
  target : String
  scan_type : String
  modules : List String
deriving DecidableEq, Repr

/-- The response body of the v1 scan endpoint (`ReconResponse`). -/
structure ReconResponse (α β : Type) where
  scan_id : Nat
  target : String
  status : String
  results : List (String × α)
  analysis : β
  timestamp : String
deriving DecidableEq, Repr

/-- Embedding of `fastapi.HTTPException` as raised by the scan endpoints. -/
structure HTTPError where
  status_code : Nat
  detail : String
deriving DecidableEq, Repr

/-- The behaviour of the five global intelligence-module singletons for
one request: each `scan` coroutine either returns a payload or raises
(`Except.error` carries `str(e)`). -/
structure Modules (α : Type) where
  domain : Except String α
  web : Except String α
  network : Except String α
  social : Except String α
  threat : Except String α

/-- Module behaviours for a request on which every module returns
normally. -/
structure ModulesOk (α : Type) where
  domain : α
  web : α
  network : α
  social : α
  threat : α

/-- View an all-successful behaviour as a `Modules` value. -/
def ModulesOk.toModules {α : Type} (v : ModulesOk α) : Modules α :=
  { domain := .ok v.domain, web := .ok v.web, network := .ok v.network,
    social := .ok v.social, threat := .ok v.threat }

/-- One conditional dispatch step of `start_scan`
(`if name in recon_request.modules: results[name] = await mod.scan(...)`):
if an earlier step already raised, this statement never runs; if the
module is requested and its scan raises, the exception aborts the
whole block; otherwise the payload is appended under the module name
(Python dicts preserve insertion order). -/
def dispatchStep {α : Type} (requested : List String) (name : String)
    (beh : Except String α) (acc : Except String (List (String × α))) :
    Except String (List (String × α)) :=
  match acc with
  | .error e => .error e
  | .ok l =>
    if requested.contains name then
      match beh with
      | .ok v => .ok (l ++ [(name, v)])
      | .error e => .error e
    else .ok l

/-- The module-dispatch block of `start_scan` (app.py lines 93-109):
the five membership-guarded scans run in the fixed source order
domain, web, network, social, threat, starting from the empty result
dict. -/
def gather_results {α : Type} (mods : Modules α) (requested : List String) :
    Except String (List (String × α)) :=
  dispatchStep requested ("threat") mods.threat
    (dispatchStep requested ("social") mods.social
      (dispatchStep requested ("network") mods.network
        (dispatchStep requested ("web") mods.web
          (dispatchStep requested ("domain") mods.domain (.ok [])))))

/-- The fixed dispatch order of module names hard-coded in
`start_scan`. -/
def knownModules : List String :=
  ["domain", "web", "network", "social", "threat"]

/-- The result map `gather_results` produces when every module returns
normally: the guarded appends collapse to a concatenation of
singletons in source order. -/
def gatherPure {α : Type} (v : ModulesOk α) (requested : List String) :
    List (String × α) :=
  (if requested.contains ("domain") then [(("domain"), v.domain)] else [])
    ++ (if requested.contains ("web") then [(("web"), v.web)] else [])
    ++ (if requested.contains ("network") then [(("network"), v.network)] else [])
    ++ (if requested.contains ("social") then [(("social"), v.social)] else [])
    ++ (if requested.contains ("threat") then [(("threat"), v.threat)] else [])

/-- True when some requested module raises, i.e. some guarded scan call
in the dispatch block throws. -/
def anyModuleFails {α : Type} (mods : Modules α) (requested : List String) : Bool :=
  (requested.contains ("domain") && !mods.domain.isOk)
  || (requested.contains ("web") && !mods.web.isOk)
  || (requested.contains ("network") && !mods.network.isOk)
  || (requested.contains ("social") && !mods.social.isOk)
  || (requested.contains ("threat") && !mods.threat.isOk)

/-- Embedding of `start_scan` (app.py lines 79-127).  The entire body sits in one
try block whose handler re-raises any exception as
`HTTPException(status_code=500, detail=str(e))`.  The analysis stage
is the parameter `analyzer` (the call `llm_analyzer.analyze(target,
results)`), which may raise.  The returned pair is the HTTP outcome
together with the database state, which keeps the committed
`create_scan` insert even when a later step raises. -/
def start_scan {α β : Type} (mods : Modules α)
    (analyzer : String → List (String × α) → Except String β)
    (req : ReconRequest) (db : DB α β) (now : String) :
    Except HTTPError (ReconResponse α β) × DB α β :=
  let created := Database.create_scan db req.target req.scan_type now
  match gather_results mods req.modules with
  | .error e => (.error { status_code := 500, detail := e }, created.2)
  | .ok results =>
    match analyzer req.target results with
    | .error e => (.error { status_code := 500, detail := e }, created.2)
    | .ok analysis =>
      (.ok { scan_id := created.1, target := req.target, status := "completed",
             results := results, analysis := analysis, timestamp := now },
       Database.save_results created.2 created.1 results analysis now)

/-! ## src/modules/llm_analyzer.py

Every LLM helper of `LLMAnalyzer` wraps its provider call (and any
response parsing) in its own try/except and substitutes a fixed
placeholder on failure.  The provider interaction of each helper is
therefore embedded as one `Except` input per field: `.ok` is a
successfully parsed provider response, `.error` is any exception
raised while calling the provider or parsing its output.  The prompt
text built by `_prepare_intelligence_data` does not influence any
control flow and is not modelled. -/

namespace LLMAnalyzer

/-- Parsed shape of the attack-surface JSON answer. -/
structure AttackSurface where
  exposure_points : List String
  entry_vectors : List String
  high_value_targets : List String
deriving DecidableEq, Repr

/-- One entry of the vulnerabilities JSON answer. -/
structure Vulnerability where
  title : String
  severity : String
  description : String
deriving DecidableEq, Repr

/-- One entry of the correlations JSON answer. -/
structure Correlation where
  finding : String
  significance : String
deriving DecidableEq, Repr

/-- The six independent provider interactions performed by `analyze`,
one per analysis field. -/
structure ProviderOutcomes where
  summary : Except String String
  risk_score : Except String Int
  attack_surface : Except String AttackSurface
  vulnerabilities : Except String (List Vulnerability)
  recommendations : Except String (List String)
  correlations : Except String (List Correlation)

/-- The analysis dictionary returned by `LLMAnalyzer.analyze`.  The
`error` key is only ever added by the outer try/except of `analyze`;
since every helper handles its own failures, that handler is dead code
and the field stays `none`. -/
structure Analysis where
  target : String
  timestamp : String
  summary : String
  risk_score : Int
  attack_surface : AttackSurface
  vulnerabilities : List Vulnerability
  recommendations : List String
  correlations : List Correlation
  error : Option String
deriving DecidableEq, Repr

/-- Embedding of `LLMAnalyzer._generate_summary`: the stripped provider answer, or
the formatted failure message. -/
def generate_summary (r : Except String String) : String :=
  match r with
  | .ok s => s.trim
  | .error e => "Summary generation failed: " ++ e

/-- Embedding of `LLMAnalyzer._calculate_risk_score`: the parsed integer answer, or
the default medium risk 50 (the bare except also covers a
non-numeric answer, folded here into the `.error` case). -/
def calculate_risk_score (r : Except String Int) : Int :=
  match r with
  | .ok n => n
  | .error _ => 50

/-- Embedding of `LLMAnalyzer._analyze_attack_surface`: the parsed JSON, or the
Unable-to-analyze placeholder object. -/
def analyze_attack_surface (r : Except String AttackSurface) : AttackSurface :=
  match r with
  | .ok a => a
  | .error _ =>
    { exposure_points := ["Unable to analyze"],
      entry_vectors := ["Unable to analyze"],
      high_value_targets := ["Unable to analyze"] }

/-- Embedding of `LLMAnalyzer._identify_vulnerabilities`: the parsed JSON array, or
the single Analysis-Error placeholder entry. -/
def identify_vulnerabilities (r : Except String (List Vulnerability)) :
    List Vulnerability :=
  match r with
  | .ok l => l
  | .error _ =>
    [{ title := "Analysis Error", severity := "Unknown",
       description := "Unable to identify vulnerabilities" }]

/-- Embedding of `LLMAnalyzer._generate_recommendations`: the parsed JSON array, or
the single placeholder string. -/
def generate_recommendations (r : Except String (List String)) : List String :=
  match r with
  | .ok l => l
  | .error _ => ["Unable to generate recommendations"]

/-- Embedding of `LLMAnalyzer._find_correlations`: the parsed JSON array, or the
single Analysis-incomplete placeholder entry. -/
def find_correlations (r : Except String (List Correlation)) :
    List Correlation :=
  match r with
  | .ok l => l
  | .error _ =>
    [{ finding := "Analysis incomplete",
       significance := "Unable to correlate data" }]

/-- Embedding of `LLMAnalyzer.analyze`: builds the analysis dictionary and fills
each field from its own helper; each helper degrades on its own
provider failure, so the function is total and the outer handler
never fires. -/
def analyze (po : ProviderOutcomes) (target now : String) : Analysis :=
  { target := target, timestamp := now,
    summary := generate_summary po.summary,
    risk_score := calculate_risk_score po.risk_score,
    attack_surface := analyze_attack_surface po.attack_surface,
    vulnerabilities := identify_vulnerabilities po.vulnerabilities,
    recommendations := generate_recommendations po.recommendations,
    correlations := find_correlations po.correlations,
    error := none }

end LLMAnalyzer

/-! ## src/app_v2.py -/

/-- The request body of the v2 scan endpoint, which adds
`target_type` and the person-specific fields. -/
structure ReconRequestV2 where
  target : String
  scan_type : String
  target_type : String
  modules : List String
  state : Option String
  dob : Option String
deriving DecidableEq, Repr

/-- The response body of the v2 scan endpoint. -/
structure ReconResponseV2 (α β : Type) where
  scan_id : Nat
  target : String
  target_type : String
  status : String
  results : List (String × α)
  analysis : β
  timestamp : String
deriving DecidableEq, Repr

/-- The parameter names of `LLMAnalyzer.analyze` after `self`:
`(target, results)`; the signature has no keyword-variadic parameter
and no defaults. -/
def analyzeParams : List String := ["target", "results"]

/-- Python call binding for a signature whose parameters are all plain
positional-or-keyword with no defaults and no variadics: the call is
accepted iff there are not too many positional arguments, every
keyword names a parameter, no keyword rebinds a positionally filled
parameter, and every parameter ends up bound.  A `false` outcome is a
`TypeError` raised at the call site. -/
def bindCall (params : List String) (npos : Nat) (kwargs : List String) : Bool :=
  decide (npos ≤ params.length)
    && kwargs.all (fun k => params.contains k)
    && kwargs.all (fun k => !(params.take npos).contains k)
    && (params.drop npos).all (fun p => kwargs.contains p)

/-- Embedding of `start_scan` of app_v2.py (lines 91-155).  After `create_scan`,
the person branch gathers one module (`person_intel.scan`) and the
domain branch gathers the five guarded modules; both branches then
call `llm_analyzer.analyze(results, target_type=...)` — one
positional argument plus the keyword `target_type` — against the
two-parameter signature, so the call raises `TypeError` whenever it is
reached.  Were the binding accepted, execution would next call
`db.update_scan(...)`, an attribute the `Database` class never
defines; the hypothetical success continuation is kept behind those
two dead guards.  Any exception lands in the handler that raises
`HTTPException(500)`. -/
def start_scan_v2 {α β : Type} (mods : Modules α) (personBeh : Except String α)
    (analysisVal : β) (req : ReconRequestV2) (db : DB α β) (now : String) :
    Except HTTPError (ReconResponseV2 α β) × DB α β :=
  let created := Database.create_scan db req.target req.scan_type now
  let gathered : Except String (List (String × α)) :=
    if req.target_type = "person" then
      match personBeh with
      | .ok v => .ok [(("person"), v)]
      | .error e => .error e
    else gather_results mods req.modules
  match gathered with
  | .error e => (.error { status_code := 500, detail := e }, created.2)
  | .ok results =>
    if bindCall analyzeParams 1 ["target_type"] then
      if Database.methodNames.contains ("update_scan") then
        (.ok { scan_id := created.1, target := req.target,
               target_type := req.target_type, status := "completed",
               results := results, analysis := analysisVal, timestamp := now },
         created.2)
      else
        (.error { status_code := 500,
                  detail := "Database object has no attribute update_scan" },
         created.2)
    else
      (.error { status_code := 500,
                detail := "analyze() got an unexpected keyword argument target_type" },
       created.2)

/-! ## Theorems -/

open NetworkIntelligence

/-- The probe result always carries the probed port number in its
first component. -/
theorem scan_port_fst (conn : ConnAttempt) (port : Nat) :
    (scan_port conn port).1 = port := by
  cases conn with
  | fail => rfl
  | ok readOutcome closeOk => cases closeOk <;> simp [scan_port]

/-- The classification loop, characterised: open ports and closed
ports are the in-order filters of the probed triples, the service map
tags each open port, and the banner map keeps exactly the truthy
banners of open ports. -/
theorem classify_eq (ts : List (Nat × Bool × Option String)) :
    classify ts =
      ((ts.filter fun t => t.2.1).map (fun t => t.1),
       (ts.filter fun t => !t.2.1).map (fun t => t.1),
       (ts.filter fun t => t.2.1).map (fun t => (t.1, identify_service t.1)),
       ts.filterMap fun t =>
         if t.2.1 then
           match t.2.2 with
           | some bn => if bn = "" then none else some (t.1, bn)
           | none => none
         else none) := by
  induction ts with
  | nil => rfl
  | cons a t ih =>
    obtain ⟨port, isOpen, banner⟩ := a
    rw [classify, ih]
    cases isOpen with
    | false => simp [List.filter_cons, List.filterMap_cons]
    | true =>
      cases banner with
      | none => simp [List.filter_cons, List.filterMap_cons]
      | some bn =>
        by_cases hb : bn = "" <;>
          simp [List.filter_cons, List.filterMap_cons, hb]

/-- The probed triples, re-expressed with the probed port made
explicit in the first component. -/
theorem portScan_eq (conn : Nat → ConnAttempt) :
    portScan conn
      = common_ports.map
          (fun p => (p, isOpenPort conn p, (scan_port (conn p) p).2.2)) := by
  unfold portScan
  refine List.map_congr_left fun p _ => ?_
  have h1 := scan_port_fst (conn p) p
  rcases hsp : scan_port (conn p) p with ⟨a, b, c⟩
  rw [hsp] at h1
  simp at h1
  simp [isOpenPort, hsp, h1]

/-- Helper: `bannerEntry`, unfolded along the explicit-port normal form. -/
theorem bannerEntry_eq (conn : Nat → ConnAttempt) (p : Nat) :
    bannerEntry conn p
      = if isOpenPort conn p then
          match (scan_port (conn p) p).2.2 with
          | some bn => if bn = "" then none else some (p, bn)
          | none => none
        else none := by
  have h1 := scan_port_fst (conn p) p
  rcases hsp : scan_port (conn p) p with ⟨a, b, c⟩
  rw [hsp] at h1
  simp only [bannerEntry, isOpenPort, hsp, h1]

/-- Classification of the full port fan-out: everything is indexed by
the static port list, in its order. -/
theorem classify_portScan (conn : Nat → ConnAttempt) :
    classify (portScan conn) =
      (common_ports.filter (isOpenPort conn),
       common_ports.filter (fun p => !isOpenPort conn p),
       (common_ports.filter (isOpenPort conn)).map
         (fun p => (p, identify_service p)),
       common_ports.filterMap (bannerEntry conn)) := by
  rw [portScan_eq, classify_eq, List.filter_map, List.filter_map,
    List.filterMap_map, List.map_map, List.map_map]
  simp only [Prod.mk.injEq]
  refine ⟨?_, ⟨?_, ⟨?_, ?_⟩⟩⟩
  · exact (List.map_congr_left fun p _ => rfl).trans (List.map_id' _)
  · exact (List.map_congr_left fun p _ => rfl).trans (List.map_id' _)
  · rw [List.map_map]
    exact List.map_congr_left fun p _ => rfl
  · exact congrArg (fun g => List.filterMap g common_ports)
      (funext fun p => (bannerEntry_eq conn p).symm)

/-- Helper: `NetworkIntelligence.scan` on a resolving hostname, fully
characterised field by field. -/
theorem scan_ok_fields (ip : String) (conn : Nat → ConnAttempt)
    (target now : String) :
    scan (.ok ip) conn target now =
      { target := target, timestamp := now,
        open_ports := common_ports.filter (isOpenPort conn),
        closed_ports := common_ports.filter (fun p => !isOpenPort conn p),
        services := (common_ports.filter (isOpenPort conn)).map
          (fun p => (p, identify_service p)),
        banners := common_ports.filterMap (bannerEntry conn),
        ip_address := some ip, error := none } := by
  simp only [scan, classify_portScan]

/-- Claim C3: for a target whose hostname resolution fails, the
network module records the resolution failure message under the error
key and produces no per-port data whatsoever — the open-port,
closed-port, service and banner collections are all empty, no address
is stored, and the output does not depend on the per-port network
behaviour at all (no port is probed). -/
theorem resolution_failure_yields_empty_error (e : String)
    (conn : Nat → ConnAttempt) (target now : String) :
    (scan (.error e) conn target now).error
        = some ("Could not resolve hostname: " ++ e) ∧
    (scan (.error e) conn target now).open_ports = [] ∧
    (scan (.error e) conn target now).closed_ports = [] ∧
    (scan (.error e) conn target now).services = [] ∧
    (scan (.error e) conn target now).banners = [] ∧
    (scan (.error e) conn target now).ip_address = none ∧
    ∀ conn2 : Nat → ConnAttempt,
      scan (.error e) conn target now = scan (.error e) conn2 target now :=
  ⟨rfl, rfl, rfl, rfl, rfl, rfl, fun _ => rfl⟩

/-- Claim C5: the single-port probe is a total function into a
`(port, is_open, banner)` result for the probed port; a failed
connect, and equally a failure while closing an established
connection, is normalised to `(port, false, none)` instead of
raising. -/
theorem scan_port_total_normalises_failure (port : Nat) :
    scan_port ConnAttempt.fail port = (port, false, none) ∧
    (∀ readOutcome : BannerRead,
      scan_port (ConnAttempt.ok readOutcome false) port = (port, false, none)) ∧
    ∀ conn : ConnAttempt, (scan_port conn port).1 = port := by
  refine ⟨rfl, fun readOutcome => rfl, fun conn => scan_port_fst conn port⟩

/-- Claim C6: for a resolving hostname the fan-out probes exactly the
static 20-entry port list, one result per port in list order, and the
open/closed classification partitions that list with the relative
order of the list preserved on both sides. -/
theorem port_scan_partitions_static_list (ip : String)
    (conn : Nat → ConnAttempt) (target now : String) :
    (portScan conn).map (fun r => r.1) = common_ports ∧
    (portScan conn).length = common_ports.length ∧
    common_ports.length = 20 ∧
    (scan (.ok ip) conn target now).open_ports
      = common_ports.filter (isOpenPort conn) ∧
    (scan (.ok ip) conn target now).closed_ports
      = common_ports.filter (fun p => !isOpenPort conn p) ∧
    List.Perm
      ((scan (.ok ip) conn target now).open_ports
        ++ (scan (.ok ip) conn target now).closed_ports)
      common_ports := by
  have hmap : (portScan conn).map (fun r => r.1) = common_ports := by
    rw [portScan_eq, List.map_map]
    exact (List.map_congr_left fun p _ => rfl).trans (List.map_id' _)
  refine ⟨hmap, by rw [portScan_eq, List.length_map], by rfl, ?_, ?_, ?_⟩
  · simp [scan_ok_fields]
  · simp [scan_ok_fields]
  · simp only [scan_ok_fields]
    exact List.filter_append_perm _ common_ports

/-- A banners-map entry produced by the classification loop never
carries an empty banner string. -/
theorem bannerEntry_ne_empty {conn : Nat → ConnAttempt} {p : Nat}
    {entry : Nat × String} (h : bannerEntry conn p = some entry) :
    ¬entry.2 = "" := by
  rw [bannerEntry_eq] at h
  by_cases ho : isOpenPort conn p
  · rw [if_pos ho] at h
    cases hb : (scan_port (conn p) p).2.2 with
    | none => rw [hb] at h; simp at h
    | some bn =>
      rw [hb] at h
      simp only [] at h
      by_cases hbn : bn = ""
      · simp [hbn] at h
      · simp only [hbn, if_false, Option.some.injEq] at h
        rw [← h]
        simpa using hbn
  · rw [if_neg ho] at h; simp at h

/-- Claim C8, refuted at a concrete input: on a successfully connected
port whose banner read returns no data (an empty read, decoded and
stripped to the empty string), the probe reports the port open but
with banner `some ""` — the empty string — and not `none` as the
claim states. -/
theorem empty_banner_read_counterexample :
    scan_port (ConnAttempt.ok (BannerRead.data ("")) true) 80
      = (80, true, some ("")) ∧
    some ("") ≠ (none : Option String) :=
  ⟨rfl, by simp⟩

/-- Claim C8 as amended: on a successfully connected port, a reset or
a timeout of the banner read still reports the port open with banner
`none`; a read that returns data reports the stripped data, so a read
yielding no data gives the empty-string banner rather than `none`;
the scan stage treats a falsy banner as absent, so the banners map of
the module output never contains an empty banner.  In every such case
the port is reported open, and the absence of a banner is never an
error. -/
theorem banner_absence_is_not_error (port : Nat) (ip target now : String)
    (conn : Nat → ConnAttempt) :
    scan_port (ConnAttempt.ok BannerRead.failed true) port
      = (port, true, none) ∧
    (∀ raw : String,
      scan_port (ConnAttempt.ok (BannerRead.data raw) true) port
        = (port, true, some (pyStrip raw))) ∧
    (scan (.ok ip) conn target now).banners.all
      (fun entry => !(entry.2 == (""))) = true := by
  refine ⟨rfl, fun raw => rfl, ?_⟩
  rw [scan_ok_fields]
  simp only [List.all_eq_true]
  intro entry hmem
  obtain ⟨p, _, hp⟩ := List.mem_filterMap.mp hmem
  simpa using bannerEntry_ne_empty hp

/-- A successful association-list lookup pinpoints a member pair. -/
theorem lookup_mem {l : List (Nat × String)} {p : Nat} {s : String}
    (h : l.lookup p = some s) : (p, s) ∈ l := by
  induction l with
  | nil => simp [List.lookup] at h
  | cons a t ih =>
    obtain ⟨k, v⟩ := a
    rw [List.lookup] at h
    by_cases hk : p = k
    · subst hk
      simp at h
      subst h
      exact List.mem_cons_self _ _
    · have hbeq : (p == k) = false := by simpa using hk
      rw [hbeq] at h
      exact List.mem_cons_of_mem _ (ih h)

/-- Claim C9: the services map of the network module output contains
exactly the open ports, each mapped through the static
port-to-service table (22 to SSH, 443 to HTTPS, 3306 to MySQL, and so
on, with unmapped ports labelled Unknown); no closed port appears in
the services map. -/
theorem services_exactly_open_ports (ip : String)
    (conn : Nat → ConnAttempt) (target now : String) :
    (scan (.ok ip) conn target now).services
      = (scan (.ok ip) conn target now).open_ports.map
          (fun p => (p, identify_service p)) ∧
    (scan (.ok ip) conn target now).closed_ports.all
      (fun p =>
        !(((scan (.ok ip) conn target now).services.map Prod.fst).contains p))
      = true ∧
    identify_service 22 = "SSH" ∧
    identify_service 443 = "HTTPS" ∧
    identify_service 3306 = "MySQL" ∧
    ∀ p : Nat,
      identify_service p = "Unknown" ∨ (p, identify_service p) ∈ serviceTable := by
  refine ⟨by rw [scan_ok_fields], ?_, rfl, rfl, rfl, ?_⟩
  · rw [scan_ok_fields]
    simp only [List.all_eq_true, List.map_map]
    intro p hmem
    have hopenFalse : isOpenPort conn p = false := by
      simpa using List.of_mem_filter hmem
    have hnot : p ∉ List.map (Prod.fst ∘ fun q => (q, identify_service q))
        (common_ports.filter (isOpenPort conn)) := by
      intro hcon
      obtain ⟨q, hq, hqe⟩ := List.mem_map.mp hcon
      have hopenTrue := List.of_mem_filter hq
      have hqp : q = p := by simpa using hqe
      rw [hqp, hopenFalse] at hopenTrue
      exact Bool.false_ne_true hopenTrue
    cases hc : (List.map (Prod.fst ∘ fun q => (q, identify_service q))
        (common_ports.filter (isOpenPort conn))).contains p with
    | false => rfl
    | true => exact absurd (List.elem_iff.mp hc) hnot
  · intro p
    unfold identify_service
    cases h : serviceTable.lookup p with
    | none => exact Or.inl rfl
    | some s => exact Or.inr (lookup_mem h)

/-- A dispatch step whose module returns normally extends the result
map by its namespaced entry exactly when the module was requested. -/
theorem dispatchStep_ok {α : Type} (requested : List String) (name : String)
    (v : α) (l : List (String × α)) :
    dispatchStep requested name (.ok v) (.ok l)
      = .ok (if requested.contains name then l ++ [(name, v)] else l) := by
  unfold dispatchStep
  simp [apply_ite Except.ok]

/-- Inversion of a successful dispatch step: the accumulator had not
raised, and if the module was requested its scan returned normally. -/
theorem dispatchStep_ok_inv {α : Type} {requested : List String}
    {name : String} {beh : Except String α}
    {acc : Except String (List (String × α))} {out : List (String × α)}
    (h : dispatchStep requested name beh acc = .ok out) :
    (∃ l, acc = .ok l) ∧
      (requested.contains name = true → ∃ v, beh = .ok v) := by
  cases acc with
  | error e => exact absurd h (by simp [dispatchStep])
  | ok l =>
    refine ⟨⟨l, rfl⟩, fun hc => ?_⟩
    cases beh with
    | ok v => exact ⟨v, rfl⟩
    | error e =>
      simp only [dispatchStep, hc, if_true] at h
      simp at h

/-- Inversion of a successful dispatch block: no requested module
raised. -/
theorem gather_results_ok_inv {α : Type} {mods : Modules α}
    {requested : List String} {out : List (String × α)}
    (h : gather_results mods requested = .ok out) :
    anyModuleFails mods requested = false := by
  unfold gather_results at h
  obtain ⟨⟨l4, h4⟩, ht⟩ := dispatchStep_ok_inv h
  obtain ⟨⟨l3, h3⟩, hs⟩ := dispatchStep_ok_inv h4
  obtain ⟨⟨l2, h2⟩, hn⟩ := dispatchStep_ok_inv h3
  obtain ⟨⟨l1, h1⟩, hw⟩ := dispatchStep_ok_inv h2
  obtain ⟨-, hd⟩ := dispatchStep_ok_inv h1
  have hfail : ∀ (c : Bool) (b : Except String α),
      (c = true → ∃ v, b = .ok v) → (c && !b.isOk) = false := by
    intro c b hcb
    cases c with
    | false => rfl
    | true =>
      obtain ⟨v, hv⟩ := hcb rfl
      rw [hv]
      rfl
  unfold anyModuleFails
  rw [hfail _ _ hd, hfail _ _ hw, hfail _ _ hn, hfail _ _ hs, hfail _ _ ht]
  rfl

/-- If some requested module raises, the whole dispatch block raises
(the exception of the first failing module in dispatch order). -/
theorem gather_results_error_of_fails {α : Type} {mods : Modules α}
    {requested : List String}
    (h : anyModuleFails mods requested = true) :
    ∃ e, gather_results mods requested = .error e := by
  cases hg : gather_results mods requested with
  | ok l =>
    rw [gather_results_ok_inv hg] at h
    exact absurd h (by simp)
  | error e => exact ⟨e, rfl⟩

/-- With all modules returning normally, the dispatch block returns
the pure aggregation. -/
theorem gather_results_toModules {α : Type} (v : ModulesOk α)
    (requested : List String) :
    gather_results v.toModules requested = .ok (gatherPure v requested) := by
  simp only [gather_results, ModulesOk.toModules, dispatchStep_ok, gatherPure]
  by_cases h1 : ("domain" : String) ∈ requested <;>
  by_cases h2 : ("web" : String) ∈ requested <;>
  by_cases h3 : ("network" : String) ∈ requested <;>
  by_cases h4 : ("social" : String) ∈ requested <;>
  by_cases h5 : ("threat" : String) ∈ requested <;>
    simp [h1, h2, h3, h4, h5]

/-- The key sequence of the pure aggregation: the fixed dispatch
order, restricted to the requested names. -/
theorem gatherPure_keys {α : Type} (v : ModulesOk α)
    (requested : List String) :
    (gatherPure v requested).map Prod.fst
      = knownModules.filter (fun m => requested.contains m) := by
  by_cases h1 : ("domain" : String) ∈ requested <;>
  by_cases h2 : ("web" : String) ∈ requested <;>
  by_cases h3 : ("network" : String) ∈ requested <;>
  by_cases h4 : ("social" : String) ∈ requested <;>
  by_cases h5 : ("threat" : String) ∈ requested <;>
    simp [gatherPure, knownModules, List.filter, h1, h2, h3, h4, h5]

/-- Claim C1, refuted at a concrete input: with the domain module
succeeding and the web module raising, the endpoint does not convert
the exception into an error-tagged outcome — it surfaces it to the
caller as HTTP 500, the domain module's already-gathered payload is
lost (no result map is returned at all), and the persisted scan stays
in status running instead of reaching completed. -/
theorem module_exception_counterexample :
    (start_scan
      ({ domain := Except.ok ("domain data"), web := Except.error ("boom"),
         network := Except.ok ("n"), social := Except.ok ("s"),
         threat := Except.ok ("t") } : Modules String)
      (fun _ _ => Except.ok (0 : Nat))
      { target := ("example.com"), scan_type := ("full"),
        modules := [("domain"), ("web"), ("network")] }
      { nextId := 0, scans := [] } ("t0")).1
      = Except.error { status_code := 500, detail := "boom" } ∧
    ((start_scan
      ({ domain := Except.ok ("domain data"), web := Except.error ("boom"),
         network := Except.ok ("n"), social := Except.ok ("s"),
         threat := Except.ok ("t") } : Modules String)
      (fun _ _ => Except.ok (0 : Nat))
      { target := ("example.com"), scan_type := ("full"),
        modules := [("domain"), ("web"), ("network")] }
      { nextId := 0, scans := [] } ("t0")).2.scans.map fun r => r.status)
      = [("running")] := by
  constructor <;> rfl

/-- Claim C1 as amended: there is no per-module failure boundary in
`start_scan`; whenever any requested module's scan raises, the
exception propagates to the endpoint's outer handler and is surfaced
to the caller as an HTTP 500 error, no aggregate (and hence no sibling
module's payload) is returned, the database keeps only the initial
insert, and the persisted scan record remains in status running
rather than reaching completed. -/
theorem module_exception_propagates_500 {α β : Type} (mods : Modules α)
    (analyzer : String → List (String × α) → Except String β)
    (req : ReconRequest) (db : DB α β) (now : String)
    (h : anyModuleFails mods req.modules = true) :
    (∃ e, (start_scan mods analyzer req db now).1
        = Except.error { status_code := 500, detail := e }) ∧
    (start_scan mods analyzer req db now).2
      = (Database.create_scan db req.target req.scan_type now).2 ∧
    ((start_scan mods analyzer req db now).2.scans.map fun r => r.status).head?
      = some ("running") := by
  obtain ⟨e, he⟩ := gather_results_error_of_fails h
  refine ⟨⟨e, ?_⟩, ?_, ?_⟩ <;>
    simp [start_scan, he, Database.create_scan]

/-- Witness for the amended claim C1 at a concrete input. -/
theorem module_exception_propagates_500_witness :
    anyModuleFails
      ({ domain := Except.ok (1 : Nat), web := Except.error ("boom"),
         network := Except.ok 2, social := Except.ok 3,
         threat := Except.ok 4 } : Modules Nat) [("web")] = true ∧
    (∃ e, (start_scan
      ({ domain := Except.ok (1 : Nat), web := Except.error ("boom"),
         network := Except.ok 2, social := Except.ok 3,
         threat := Except.ok 4 } : Modules Nat)
      (fun _ _ => Except.ok (0 : Nat))
      { target := ("example.com"), scan_type := ("full"),
        modules := [("web")] }
      { nextId := 0, scans := [] } ("t0")).1
        = Except.error { status_code := 500, detail := e }) :=
  ⟨by decide,
   (module_exception_propagates_500 _ _
     { target := ("example.com"), scan_type := ("full"),
       modules := [("web")] }
     { nextId := 0, scans := [] } ("t0") (by decide)).1⟩

/-- Claim C2, refuted at a concrete input: for the request module list
`[network, domain]` (all modules succeeding), the aggregated result
map has keys `[domain, network]` — the fixed dispatch order of the
code — which is not the order of the request. -/
theorem aggregate_key_order_counterexample :
    (start_scan
      (ModulesOk.toModules
        ({ domain := ("d"), web := ("w"), network := ("n"),
           social := ("s"), threat := ("t") } : ModulesOk String))
      (fun _ _ => Except.ok (0 : Nat))
      { target := ("example.com"), scan_type := ("full"),
        modules := [("network"), ("domain")] }
      { nextId := 0, scans := [] } ("t0")).1
      = Except.ok
        { scan_id := 0, target := "example.com", status := "completed",
          results := [(("domain"), ("d")), (("network"), ("n"))],
          analysis := 0, timestamp := "t0" } ∧
    [("domain"), ("network")] ≠ [("network"), ("domain" : String)] := by
  exact ⟨rfl, by decide⟩

/-- Claim C2 as amended: when every requested module returns normally,
the aggregated result map handed to the analysis stage and returned to
the caller has as its key sequence the fixed dispatch order (domain,
web, network, social, threat) restricted to the names present in the
request — so requested names outside the five known modules are
silently dropped, and the insertion order is the fixed code order, not
the request order.  (When a requested module raises, no aggregate is
produced at all; see the claim about module exceptions.) -/
theorem aggregate_keys_fixed_order {α β : Type} (v : ModulesOk α)
    (analysisOf : String → List (String × α) → β)
    (req : ReconRequest) (db : DB α β) (now : String) :
    ∃ l, gather_results v.toModules req.modules = .ok l ∧
      l.map Prod.fst = knownModules.filter (fun m => req.modules.contains m) ∧
      (start_scan v.toModules (fun t r => Except.ok (analysisOf t r))
          req db now).1
        = Except.ok
          { scan_id := db.nextId, target := req.target, status := "completed",
            results := l, analysis := analysisOf req.target l,
            timestamp := now } := by
  refine ⟨gatherPure v req.modules, gather_results_toModules v req.modules,
    gatherPure_keys v req.modules, ?_⟩
  simp [start_scan, gather_results_toModules, Database.create_scan]

/-- Claim C7: a failure of the analysis provider never fails the scan.
With every requested module returning normally and the analysis stage
being the real `LLMAnalyzer.analyze` (total in the provider
outcomes), the endpoint returns a completed response and persists the
record with status completed for every combination of provider
failures; each analysis field is a function of its own provider
outcome only (so fields degrade independently), and on provider
failure each field takes its error or placeholder value. -/
theorem analysis_failure_never_fails_scan {α : Type} (v : ModulesOk α)
    (po : LLMAnalyzer.ProviderOutcomes) (req : ReconRequest)
    (db : DB α LLMAnalyzer.Analysis) (now : String) :
    (∃ l, (start_scan v.toModules
        (fun t _ => Except.ok (LLMAnalyzer.analyze po t now)) req db now).1
      = Except.ok
        { scan_id := db.nextId, target := req.target, status := "completed",
          results := l, analysis := LLMAnalyzer.analyze po req.target now,
          timestamp := now }) ∧
    ((start_scan v.toModules
        (fun t _ => Except.ok (LLMAnalyzer.analyze po t now)) req db
          now).2.scans.map fun r => r.status).head? = some ("completed") ∧
    (LLMAnalyzer.analyze po req.target now).summary
      = LLMAnalyzer.generate_summary po.summary ∧
    (LLMAnalyzer.analyze po req.target now).risk_score
      = LLMAnalyzer.calculate_risk_score po.risk_score ∧
    (LLMAnalyzer.analyze po req.target now).attack_surface
      = LLMAnalyzer.analyze_attack_surface po.attack_surface ∧
    (LLMAnalyzer.analyze po req.target now).vulnerabilities
      = LLMAnalyzer.identify_vulnerabilities po.vulnerabilities ∧
    (LLMAnalyzer.analyze po req.target now).recommendations
      = LLMAnalyzer.generate_recommendations po.recommendations ∧
    (LLMAnalyzer.analyze po req.target now).correlations
      = LLMAnalyzer.find_correlations po.correlations ∧
    (∀ e, LLMAnalyzer.generate_summary (Except.error e)
        = "Summary generation failed: " ++ e) ∧
    (∀ e, LLMAnalyzer.calculate_risk_score (Except.error e) = 50) ∧
    (∀ e, LLMAnalyzer.analyze_attack_surface (Except.error e)
        = { exposure_points := ["Unable to analyze"],
            entry_vectors := ["Unable to analyze"],
            high_value_targets := ["Unable to analyze"] }) ∧
    (∀ e, LLMAnalyzer.identify_vulnerabilities (Except.error e)
        = [{ title := "Analysis Error", severity := "Unknown",
             description := "Unable to identify vulnerabilities" }]) ∧
    (∀ e, LLMAnalyzer.generate_recommendations (Except.error e)
        = ["Unable to generate recommendations"]) ∧
    (∀ e, LLMAnalyzer.find_correlations (Except.error e)
        = [{ finding := "Analysis incomplete",
             significance := "Unable to correlate data" }]) := by
  refine ⟨⟨gatherPure v req.modules, ?_⟩, ?_, rfl, rfl, rfl, rfl, rfl, rfl,
    fun e => rfl, fun e => rfl, fun e => rfl, fun e => rfl, fun e => rfl,
    fun e => rfl⟩
  · simp [start_scan, gather_results_toModules, Database.create_scan]
  · simp [start_scan, gather_results_toModules, Database.create_scan,
      Database.save_results]

/-- Claim C4: in every database state reachable through the two
status-writing operations of `Database`, every scan row is either in
status running — created that way, with `created_at` set and
`completed_at` unset — or in status completed with `completed_at`
set, written by the single finalising update; since rows are born
running and only `save_results` rewrites them (to completed),
completed is never observed before running and no other status value
ever appears. -/
theorem scan_status_lifecycle {α β : Type} (db : DB α β)
    (h : Database.Reachable db) :
    db.scans.all Database.statusOk = true := by
  induction h with
  | empty => rfl
  | create db target scanType now hdb ih =>
    simp only [Database.create_scan, List.all_cons, ih, Bool.and_true]
    rfl
  | save db scanId results analysis now hdb ih =>
    simp only [Database.save_results, List.all_eq_true] at *
    intro r hr
    obtain ⟨r0, hr0, hre⟩ := List.mem_map.mp hr
    by_cases hid : r0.scan_id = scanId
    · rw [← hre]
      simp only [hid, if_true]
      rfl
    · rw [← hre]
      simp only [hid, if_false]
      exact ih r0 hr0

/-- Witness for claim C4: the invariant evaluated on the concrete
state obtained by creating one scan and finalising it. -/
theorem scan_status_lifecycle_witness :
    ((Database.save_results
        (Database.create_scan ({ nextId := 0, scans := [] } : DB Nat Nat)
          ("example.com") ("full") ("t0")).2
        0 [] 7 ("t1")).scans.all Database.statusOk) = true :=
  scan_status_lifecycle _
    (Database.Reachable.save _ 0 [] 7 ("t1")
      (Database.Reachable.create _ ("example.com") ("full") ("t0")
        Database.Reachable.empty))

/-- Claim C10: in the v2 endpoint, for both person and domain target
kinds (with the dispatched modules themselves returning normally),
the call `llm_analyzer.analyze(results, target_type=...)` cannot be
bound against the signature `analyze(self, target, results)` — the
keyword `target_type` names no parameter — so the call raises
`TypeError`, `start_scan` always lands in its exception handler and
returns HTTP 500, the scan record created at the start stays in
status running and is never finalised, and the `Database` class
defines no `update_scan` method for the finalisation step. -/
theorem v2_analyze_call_type_error {α β : Type} (v : ModulesOk α)
    (personVal : α) (analysisVal : β) (req : ReconRequestV2)
    (db : DB α β) (now : String) :
    bindCall analyzeParams 1 [("target_type")] = false ∧
    (start_scan_v2 v.toModules (Except.ok personVal) analysisVal req db now).1
      = Except.error
        { status_code := 500,
          detail := "analyze() got an unexpected keyword argument target_type" } ∧
    (start_scan_v2 v.toModules (Except.ok personVal) analysisVal req db now).2
      = (Database.create_scan db req.target req.scan_type now).2 ∧
    ((start_scan_v2 v.toModules (Except.ok personVal) analysisVal req db
        now).2.scans.map fun r => r.status).head? = some ("running") ∧
    Database.methodNames.contains ("update_scan") = false := by
  have hbind : bindCall analyzeParams 1 [("target_type")] = false := by decide
  refine ⟨hbind, ?_, ?_, ?_, by decide⟩ <;>
  · by_cases ht : req.target_type = "person" <;>
      simp [start_scan_v2, ht, gather_results_toModules, hbind,
        Database.create_scan]

end ReconAI
